import Mathlib

/-!
# Verification of the LightingControl schedule engine

A shallow embedding of the schedule-evaluation and state-reconciliation core
of `controller.py` (class `LightingController`), together with theorems
checking the natural-language specification against it.

Modelling conventions:
* A time of day (`datetime.time`) is a `Nat` counting minutes since midnight
  (`0 ≤ t < 1440`); comparisons on `datetime.time` values coincide with `Nat`
  comparisons on these counts.  `datetime.combine` followed by a
  `timedelta(minutes = m)` addition and `.time()` projection is addition
  modulo 1440 (Python `%` on a positive modulus is the Euclidean remainder,
  as is `Int.emod`).
* A calendar date (`datetime.date`) is an `Int` day number; `datetime.date`
  ordering and the lexicographic ordering of its ISO `YYYY-MM-DD` rendering
  both coincide with the `Int` ordering on day numbers.
* Python dictionaries keyed by strings are association lists with first-match
  lookup; a fresh insertion is a `cons` (the key being absent, the position
  of the new pair is unobservable through lookup).
* `random.randint(-m, m)` is modelled by an oracle `draw : String → Int`
  giving, per cache key, the value the generator would produce; `randint`
  returns a uniformly distributed integer of the closed interval `[-m, m]`.
* `logger.log_fatal_error` terminates the process, so a function that calls
  it never returns normally; such functions live in `Except ParseErr`.
  Warnings are collected as lists of the logged message strings.
-/

namespace LightingControl

/-! ## Characters and low-level parsing helpers -/

/-- Digit value of a character (only meaningful when `c.isDigit`). -/
def digitVal (c : Char) : Nat := c.toNat - '0'.toNat

/-- Lower-case an entire character list, as Python `str.lower()` does for
ASCII input. -/
def toLowerList (cs : List Char) : List Char := cs.map Char.toLower

/-- `time_str.lower().startswith("dawn")` (only the first four characters
matter). -/
def startsWithDawn (cs : List Char) : Bool :=
  match toLowerList cs with
  | 'd' :: 'a' :: 'w' :: 'n' :: _ => true
  | _ => false

/-- `time_str.lower().startswith("dusk")`. -/
def startsWithDusk (cs : List Char) : Bool :=
  match toLowerList cs with
  | 'd' :: 'u' :: 's' :: 'k' :: _ => true
  | _ => false

/-- The minutes part of CPython `strptime`'s `%M` directive, anchored at the
end of the input: the regex `([0-5]\d|\d)` followed by end-of-string.
A two-character rest must be `[0-5]` then a digit (the one-digit alternative
would leave unconverted data, which `strptime` rejects); a one-character rest
must be a digit. -/
def matchMinutesEnd : List Char → Option Nat
  | [a, b] =>
      if ('0' ≤ a && a ≤ '5') && b.isDigit then some (10 * digitVal a + digitVal b)
      else none
  | [a] => if a.isDigit then some (digitVal a) else none
  | _ => none

/-- CPython `strptime(time_str, "%H:%M")`: the regex `(2[0-3]|[0-1]\d|\d)`
for `%H`, a literal `:`, then `%M` as in `matchMinutesEnd`, consuming the
whole string.  The two-digit and one-digit hour shapes are distinguished by
the position of the colon, so no backtracking is needed.  Returns minutes
since midnight. -/
def matchHourMinute : List Char → Option Nat
  | a :: b :: ':' :: rest =>
      if (a == '2' && ('0' ≤ b && b ≤ '3')) || ((a == '0' || a == '1') && b.isDigit) then
        (matchMinutesEnd rest).map fun m => (10 * digitVal a + digitVal b) * 60 + m
      else none
  | a :: ':' :: rest =>
      if a.isDigit then (matchMinutesEnd rest).map fun m => digitVal a * 60 + m
      else none
  | _ => none

/-- The dawn/dusk offset regex `^([+-])(\d{2}):(\d{2})$` of `_parse_time`,
returning `sign * (hours * 60 + minutes)`.  Note the minutes field is any
two digits (`\d{2}`), not restricted to `00`–`59`. -/
def matchSignedOffset : List Char → Option Int
  | [s, a, b, ':', c, d] =>
      if (s == '+' || s == '-') && a.isDigit && b.isDigit && c.isDigit && d.isDigit then
        let total : Int := ((10 * digitVal a + digitVal b) * 60 + (10 * digitVal c + digitVal d) : Nat)
        some (if s == '-' then -total else total)
      else none
  | _ => none

/-- `(datetime.combine(today, base) + timedelta(minutes := m)).time()`:
addition of minutes modulo one day.  `Int.emod` agrees with Python `%` for
the positive modulus 1440. -/
def addMinutes (t : Nat) (m : Int) : Nat := (((t : Int) + m).emod 1440).toNat

/-! ## Dawn/dusk times, offset cache and `_parse_time` -/

/-- The `dusk_dawn` dictionary computed by `get_dusk_dawn_times`. -/
structure DuskDawn where
  dawn : Nat
  dusk : Nat
deriving DecidableEq

/-- The three `log_fatal_error` exits of `_parse_time`, carrying exactly the
data interpolated into the logged message. -/
inductive ParseErr where
  /-- "Dawn/Dusk times have not been set for schedule S, event I (M)". -/
  | duskDawnUnset (scheduleName : String) (eventIndex : Nat) (mode : String)
  /-- "Invalid dawn/dusk offset format for the schedule S, time entry T.
  Use format like Dawn+00:10 or Dusk-01:30" — note it carries the schedule
  name and the time entry only. -/
  | invalidOffset (scheduleName : String) (timeStr : String)
  /-- "Invalid time format for the schedule S, time entry T. Use format
  like HH:MM". -/
  | invalidTime (scheduleName : String) (timeStr : String)
deriving DecidableEq

/-- `self.offset_cache`: the `RandomOffsets` dictionary, keyed by
`"YYYY-MM-DD|ScheduleName|EventIndex|Mode"`. -/
abbrev OffsetCache := List (String × Int)

/-- `_generate_offset_key`. -/
def generate_offset_key (todayStr scheduleName : String) (eventIndex : Nat)
    (mode : String) : String :=
  todayStr ++ "|" ++ scheduleName ++ "|" ++ toString eventIndex ++ "|" ++ mode

/-- The base-time computation of `_parse_time` (lines before the random
offset is applied): dawn/dusk with optional signed offset, or strict
`strptime "%H:%M"` parsing, with the corresponding fatal errors. -/
def parse_base_time (duskDawn : Option DuskDawn) (time_str : String)
    (schedule_name : String) (event_index : Nat) (mode : String) :
    Except ParseErr Nat :=
  match duskDawn with
  | none => .error (.duskDawnUnset schedule_name event_index mode)
  | some dd =>
    let cs := time_str.data
    if startsWithDawn cs || startsWithDusk cs then
      let base := if startsWithDawn cs then dd.dawn else dd.dusk
      let offsetPart := cs.drop 4
      if offsetPart.isEmpty then .ok base
      else
        match matchSignedOffset offsetPart with
        | some total => .ok (addMinutes base total)
        | none => .error (.invalidOffset schedule_name time_str)
    else
      match matchHourMinute cs with
      | some t => .ok t
      | none => .error (.invalidTime schedule_name time_str)

/-- `_parse_time`: base time computation followed by the random-offset
logic.  `offset_minutes` is the event's `RandomOffset` (`if offset_minutes:`
is false for both `None` and `0`).  On a cache miss the drawn delta — the
value `random.randint(-offset_minutes, offset_minutes)` would produce,
supplied here by the oracle `draw` — is stored under the day-keyed offset
key; on a hit the cached delta is reused and the cache is unchanged. -/
def parse_time (duskDawn : Option DuskDawn) (cache : OffsetCache)
    (todayStr : String) (time_str : String) (offset_minutes : Option Nat)
    (schedule_name : String) (event_index : Nat) (mode : String)
    (draw : String → Int) : Except ParseErr (Nat × OffsetCache) :=
  match parse_base_time duskDawn time_str schedule_name event_index mode with
  | .error e => .error e
  | .ok base =>
    match offset_minutes with
    | some m =>
      if m ≠ 0 then
        let key := generate_offset_key todayStr schedule_name event_index mode
        match cache.lookup key with
        | some delta => .ok (addMinutes base delta, cache)
        | none => .ok (addMinutes base (draw key), (key, draw key) :: cache)
      else .ok (base, cache)
    | none => .ok (base, cache)

/-! ## Schedules and `_evaluate_schedule` -/

/-- One entry of an event's `DatesOff` list.  A `none` field models a
missing or null `StartDate`/`EndDate` (the `KeyError`/`TypeError` branch
of `_evaluate_schedule`, which logs an error and skips that range). -/
structure DateRange where
  startDate : Option Int
  endDate : Option Int
deriving DecidableEq

/-- One entry of a schedule's `Events` list.  `daysOfWeek` models
`event.get("DaysOfWeek", "All")` with the default applied. -/
structure ScheduleEvent where
  turnOn : String
  turnOff : String
  randomOffset : Option Nat := none
  daysOfWeek : String := "All"
  datesOff : List DateRange := []
deriving DecidableEq

/-- A configured schedule: a name and an ordered event list. -/
structure Schedule where
  name : String
  events : List ScheduleEvent
deriving DecidableEq

/-- Python `days.split(",")` on the character level (an empty input yields
one empty field, as in Python). -/
def splitOnComma : List Char → List (List Char)
  | [] => [[]]
  | ',' :: rest => [] :: splitOnComma rest
  | c :: rest =>
    match splitOnComma rest with
    | [] => [c :: []]
    | g :: gs => (c :: g) :: gs

/-- ASCII whitespace, for Python `str.strip()`. -/
def isSpaceChar (c : Char) : Bool :=
  c == ' ' || c == '\t' || c == '\n' || c == '\r'

/-- Python `d.strip()`. -/
def stripChars (cs : List Char) : List Char :=
  ((cs.dropWhile isSpaceChar).reverse.dropWhile isSpaceChar).reverse

/-- The day-of-week filter of `_evaluate_schedule`: the event applies when
`days == "All"` or the current weekday abbreviation occurs in
`[d.strip() for d in days.split(",")]`. -/
def day_matches (days weekday_str : String) : Bool :=
  days == "All" || ((splitOnComma days.data).map stripChars).contains weekday_str.data

/-- The `DatesOff` scan of `_evaluate_schedule`: true when
`start <= today <= end` holds for some range; a range whose bounds are
missing or null raises `KeyError`/`TypeError`, is logged and skipped. -/
def dates_off_hit (today : Int) : List DateRange → Bool
  | [] => false
  | r :: rest =>
    match r.startDate, r.endDate with
    | some s, some e => (s ≤ today && today ≤ e) || dates_off_hit today rest
    | _, _ => dates_off_hit today rest

/-- The event loop of `_evaluate_schedule`, carrying the enumeration index
and the offset cache (which `_parse_time` may extend).  A parse error is a
`log_fatal_error` exit, surfaced here as the `Except` error (the
`if on_time is None` guard in the source is unreachable because
`log_fatal_error` terminates the process). -/
def evaluate_events (duskDawn : Option DuskDawn) (draw : String → Int)
    (today : Int) (todayStr : String) (scheduleName : String)
    (now_time : Nat) (weekday_str : String) :
    List ScheduleEvent → Nat → OffsetCache → Except ParseErr (String × OffsetCache)
  | [], _, cache => .ok ("OFF", cache)
  | event :: rest, idx, cache =>
    if !day_matches event.daysOfWeek weekday_str then
      evaluate_events duskDawn draw today todayStr scheduleName now_time weekday_str
        rest (idx + 1) cache
    else if dates_off_hit today event.datesOff then
      .ok ("OFF", cache)
    else
      match parse_time duskDawn cache todayStr event.turnOn event.randomOffset
          scheduleName idx "On" draw with
      | .error e => .error e
      | .ok (on_time, cache1) =>
        match parse_time duskDawn cache1 todayStr event.turnOff event.randomOffset
            scheduleName idx "Off" draw with
        | .error e => .error e
        | .ok (off_time, cache2) =>
          if on_time < off_time then
            if on_time ≤ now_time && now_time < off_time then .ok ("ON", cache2)
            else
              evaluate_events duskDawn draw today todayStr scheduleName now_time
                weekday_str rest (idx + 1) cache2
          else if now_time ≥ on_time || now_time < off_time then .ok ("ON", cache2)
          else
            evaluate_events duskDawn draw today todayStr scheduleName now_time
              weekday_str rest (idx + 1) cache2

/-- `_evaluate_schedule(schedule, now, weekday_str)`, with the ambient state
(`dusk_dawn`, `offset_cache`, today's date and the random source) passed
explicitly. -/
def evaluate_schedule (duskDawn : Option DuskDawn) (draw : String → Int)
    (today : Int) (todayStr : String) (schedule : Schedule)
    (now_time : Nat) (weekday_str : String) (cache : OffsetCache) :
    Except ParseErr (String × OffsetCache) :=
  evaluate_events duskDawn draw today todayStr schedule.name now_time weekday_str
    schedule.events 0 cache

/-! ## Assignment mapping (`_map_schedules_to_outputs`, `_map_inputs_to_outputs`) -/

/-- One entry of `self.shelly_control.outputs`: a device-side output with an
optional group membership (`output.get("Group")`). -/
structure ShellyOutput where
  name : String
  group : Option String := none
deriving DecidableEq

/-- One entry of the `LightingControl` configuration list.  `schedule`
models `control.get("Schedule")` (possibly missing). -/
structure LightingControlRule where
  type : String
  target : String
  schedule : Option String := none
deriving DecidableEq

/-- One entry of the `InputControls` configuration list.  `input` models
`control.get("Input")`. -/
structure InputControlRule where
  type : String
  target : String
  input : Option String := none
deriving DecidableEq

/-- The `assignments` dictionary of both mapping passes: output name →
assigned schedule/input name or `None`, in insertion order. -/
abbrev Assignments := List (String × Option String)

/-- `assignments.get(k)`: `None` both for a missing key and for a key whose
stored value is `None`. -/
def assignments_get (m : Assignments) (k : String) : Option String :=
  match m.lookup k with
  | none => none
  | some v => v

/-- `assignments[k] = v`: update in place when the key exists, append
otherwise (dictionary insertion order). -/
def assignments_set (m : Assignments) (k : String) (v : Option String) : Assignments :=
  match m with
  | [] => [(k, v)]
  | (k', v') :: rest =>
    if k' == k then (k', v) :: rest else (k', v') :: assignments_set rest k v

/-- Python truthiness of an optional string (`None` and `""` are falsy), as
used by the `if assignments.get(target):` conflict guards. -/
def truthy : Option String → Bool
  | none => false
  | some s => !(s == "")

/-- Python `s.lower()`. -/
def lowerString (s : String) : String := String.mk (toLowerList s.data)

/-- The `group_map` built by both mapping passes: for a group name, the
member output names in list order (`setdefault(...).append`); an output
with a falsy `Group` joins no group. -/
def group_members (outputs : List ShellyOutput) (g : String) : List String :=
  (outputs.filter fun o =>
      match o.group with
      | some s => !(s == "") && s == g
      | none => false).map (·.name)

/-- The warning logged when a `switch` rule hits an already-assigned output
in `_map_schedules_to_outputs`. -/
def schedule_conflict_warning (target existing : String) : String :=
  "⚠️ Switch " ++ target ++ " already assigned to schedule " ++ existing

/-- The warning logged when a `switch group` member is already assigned in
`_map_schedules_to_outputs`. -/
def schedule_group_conflict_warning (output target existing : String) : String :=
  "⚠️ Switch " ++ output ++ " (in group " ++ target ++ ") already assigned to schedule " ++ existing

/-- The warning logged when a `switch` rule hits an already-assigned output
in `_map_inputs_to_outputs`. -/
def input_conflict_warning (target existing : String) : String :=
  "⚠️ Output " ++ target ++ " already assigned to input " ++ existing

/-- The warning logged when a `switch group` member is already assigned in
`_map_inputs_to_outputs`. -/
def input_group_conflict_warning (output target existing : String) : String :=
  "⚠️ Output " ++ output ++ " (in group " ++ target ++ ") already assigned to input " ++ existing

/-- The inner `for output in group_map.get(target, [])` loop of a
`switch group` rule: each already-assigned (truthy) member keeps its value
and contributes a warning, each other member is assigned `payload`. -/
def assign_group (warn : String → String → String) (payload : Option String) :
    List String → Assignments × List String → Assignments × List String
  | [], acc => acc
  | o :: os, (assignments, warnings) =>
    if truthy (assignments_get assignments o) then
      assign_group warn payload os
        (assignments, warnings ++ [warn o ((assignments_get assignments o).getD "")])
    else
      assign_group warn payload os (assignments_set assignments o payload, warnings)

/-- One iteration of the rule loop of `_map_schedules_to_outputs`. -/
def apply_schedule_rule (outputs : List ShellyOutput)
    (acc : Assignments × List String) (control : LightingControlRule) :
    Assignments × List String :=
  let (assignments, warnings) := acc
  let ctrl_type := lowerString control.type
  if ctrl_type == "default" then acc
  else if ctrl_type == "switch" then
    if truthy (assignments_get assignments control.target) then
      (assignments, warnings ++
        [schedule_conflict_warning control.target
          ((assignments_get assignments control.target).getD "")])
    else (assignments_set assignments control.target control.schedule, warnings)
  else if ctrl_type == "switch group" then
    assign_group (fun o v => schedule_group_conflict_warning o control.target v)
      control.schedule (group_members outputs control.target) acc
  else acc

/-- One iteration of the rule loop of `_map_inputs_to_outputs` (the
`default` rule is captured separately by the caller). -/
def apply_input_rule (outputs : List ShellyOutput)
    (acc : Assignments × List String) (control : InputControlRule) :
    Assignments × List String :=
  let (assignments, warnings) := acc
  let ctrl_type := lowerString control.type
  if ctrl_type == "default" then acc
  else if ctrl_type == "switch" then
    if truthy (assignments_get assignments control.target) then
      (assignments, warnings ++
        [input_conflict_warning control.target
          ((assignments_get assignments control.target).getD "")])
    else (assignments_set assignments control.target control.input, warnings)
  else if ctrl_type == "switch group" then
    assign_group (fun o v => input_group_conflict_warning o control.target v)
      control.input (group_members outputs control.target) acc
  else acc

/-- `_map_schedules_to_outputs`: initialise every known output to `None`,
apply the rules in file order, then fill every still-`None` output with the
first `default` rule's schedule.  Returns the map and the logged warnings.
(The re-fetch of the configuration after the rule loop in the source is
dead code: the empty case already returned above it.) -/
def map_schedules_to_outputs (outputs : List ShellyOutput)
    (controls : List LightingControlRule) : Assignments × List String :=
  if outputs.isEmpty then ([], ["No Shelly outputs configured."])
  else
    let initial : Assignments :=
      outputs.foldl (fun m o => assignments_set m o.name none) []
    if controls.isEmpty then (initial, ["No lighting controls configured."])
    else
      let (assignments, warnings) :=
        controls.foldl (apply_schedule_rule outputs) (initial, [])
      let default_schedule :=
        match controls.find? fun c => lowerString c.type == "default" with
        | some c => c.schedule
        | none => none
      (assignments.map fun kv =>
        (kv.1, match kv.2 with | none => default_schedule | some v => some v),
       warnings)

/-- `_map_inputs_to_outputs`: same shape, except the `default` capture keeps
the last `default` rule seen and unmapped outputs are filled only when that
captured input is truthy. -/
def map_inputs_to_outputs (outputs : List ShellyOutput)
    (controls : List InputControlRule) : Assignments × List String :=
  if outputs.isEmpty then ([], ["No Shelly outputs configured."])
  else
    let initial : Assignments :=
      outputs.foldl (fun m o => assignments_set m o.name none) []
    if controls.isEmpty then (initial, ["No input controls configured."])
    else
      let (assignments, warnings) :=
        controls.foldl (apply_input_rule outputs) (initial, [])
      let default_input :=
        (controls.filter fun c => lowerString c.type == "default").foldl
          (fun _ c => c.input) none
      if truthy default_input then
        (assignments.map fun kv =>
          (kv.1, match kv.2 with | none => default_input | some v => some v),
         warnings)
      else (assignments, warnings)

/-! ## History store (`_record_switch_event`, `_trim_switch_events`, `_save_state`) -/

/-- One recorded switch-change event, in the field order of the dictionary
built by `_record_switch_event`.  `time` counts seconds since midnight;
`"HH:MM:SS"` strings sort exactly like these counts. -/
structure SwitchEventRec where
  time : Nat
  switch : String
  schedule : Option String
  input : Option String
  state : String
deriving DecidableEq

/-- One day-bucket of `self.switch_events`: `{"Date": ..., "Events": [...]}`.
`date` is a day number; ISO `YYYY-MM-DD` strings sort exactly like day
numbers, so the string comparisons of `_trim_switch_events` are the `Int`
comparisons used here. -/
structure DayBucket where
  date : Int
  events : List SwitchEventRec
deriving DecidableEq

/-- `_record_switch_event`: append to today's bucket if one exists anywhere
in the list, otherwise append a fresh bucket for today. -/
def record_switch_event (event_date : Int) (event_time : Nat)
    (switch_events : List DayBucket) (switch : String) (state : String)
    (schedule_name : Option String := none) (input_name : Option String := none) :
    List DayBucket :=
  match switch_events with
  | [] => [⟨event_date, [⟨event_time, switch, schedule_name, input_name, state⟩]⟩]
  | d :: rest =>
    if d.date == event_date then
      ⟨d.date, d.events ++ [⟨event_time, switch, schedule_name, input_name, state⟩]⟩ :: rest
    else
      d :: record_switch_event event_date event_time rest switch state schedule_name input_name

/-- `_trim_switch_events`: drop buckets strictly older than
`today - max_days` (the filter keeps `Date >= cutoff`), then stable-sort the
buckets by date and each bucket's events by time (`list.sort` is a stable
sort, as is `List.insertionSort`). -/
def trim_switch_events (max_days : Nat) (today : Int)
    (switch_events : List DayBucket) : List DayBucket :=
  let cutoff_date : Int := today - (max_days : Int)
  let kept := switch_events.filter fun d => cutoff_date ≤ d.date
  let sorted := List.insertionSort (fun a b => a.date ≤ b.date) kept
  sorted.map fun d =>
    ⟨d.date, List.insertionSort (fun a b => a.time ≤ b.time) d.events⟩

/-- The fields of the persisted-state snapshot relevant here. -/
structure StateData where
  stateFileType : String
  randomOffsets : OffsetCache
  switchEvents : List DayBucket
deriving DecidableEq

/-- `_save_state`, restricted to the fields modelled: it first trims and
sorts `self.switch_events` in place, then builds the snapshot from the
trimmed list.  Returns the snapshot and the updated `switch_events`. -/
def save_state (max_days : Nat) (today : Int) (offset_cache : OffsetCache)
    (switch_events : List DayBucket) : StateData × List DayBucket :=
  let trimmed := trim_switch_events max_days today switch_events
  (⟨"LightingControl", offset_cache, trimmed⟩, trimmed)

/-! ## State reconciliation (`change_switch_states`) -/

/-- One entry of `self.switch_states`, as built by `evaluate_switch_states`:
output name, governing schedule, schedule-derived desired state, mapped
input and its observed state. -/
structure SwitchState where
  switch : String
  schedule : String
  state : String
  input : Option String
  inputState : Option String := none
deriving DecidableEq

/-- The live device layer as seen through `shelly_control` during one
reconciliation pass: per output, whether its device is online and the
truthiness of the component's `State`; per input, the truthiness of its
`State`. -/
structure DeviceView where
  online : String → Bool
  outputState : String → Bool
  inputState : String → Bool

/-- Python truthiness of the `Input` field: `if input_control:` is false
for both `None` and `""`. -/
def truthy_input : Option String → Option String
  | none => none
  | some s => if s == "" then none else some s

/-- The per-entry body of the `change_switch_states` loop.  Returns the
updated `SwitchState` entry, the updated history, and the
`change_output(component, on)` commands issued (as output-name/on pairs).
An offline device is skipped entirely. -/
def change_one (dev : DeviceView) (event_date : Int) (event_time : Nat)
    (st : SwitchState) (events : List DayBucket) :
    SwitchState × List DayBucket × List (String × Bool) :=
  if dev.online st.switch then
    let current_output_state := if dev.outputState st.switch then "ON" else "OFF"
    match truthy_input st.input with
    | some i =>
      let input_state := if dev.inputState i then "ON" else "OFF"
      let st := { st with inputState := some input_state }
      if input_state == "ON" then
        if current_output_state == "OFF" then
          ({ st with state := "ON" },
           record_switch_event event_date event_time events st.switch "ON" none (some i),
           [(st.switch, true)])
        else ({ st with state := "ON" }, events, [])
      else if st.state == current_output_state then (st, events, [])
      else
        (st,
         record_switch_event event_date event_time events st.switch st.state
           (some st.schedule) none,
         [(st.switch, st.state == "ON")])
    | none =>
      if st.state == current_output_state then (st, events, [])
      else
        (st,
         record_switch_event event_date event_time events st.switch st.state
           (some st.schedule) none,
         [(st.switch, st.state == "ON")])
  else (st, events, [])

/-- `change_switch_states` after a successful status refresh: fold
`change_one` over `self.switch_states`, threading the history and
concatenating the issued commands in order. -/
def change_switch_states (dev : DeviceView) (event_date : Int) (event_time : Nat) :
    List SwitchState → List DayBucket →
    List SwitchState × List DayBucket × List (String × Bool)
  | [], events => ([], events, [])
  | st :: rest, events =>
    let (st', events', cmds) := change_one dev event_date event_time st events
    let (rest', events'', cmds') := change_switch_states dev event_date event_time rest events'
    (st' :: rest', events'', cmds ++ cmds')

/-! ## Location resolution (`get_dusk_dawn_times`, lines 71–107) -/

/-- The location dictionary an external Shelly device reports
(`get_device_location`); each field may individually be missing.
Coordinates are kept as their decimal numerals — no claim depends on their
numeric value, only on which source they come from. -/
structure ShellyLoc where
  tz : Option String
  lat : Option String
  lon : Option String
deriving DecidableEq

/-- The `Location` section of the configuration.  `googleMapsURL` is
two-level: `none` = key absent, `some none` = key present with null value
(`"GoogleMapsURL" in loc_conf and loc_conf["GoogleMapsURL"] is not None`). -/
structure LocationConf where
  useShellyDevice : Option String
  timezone : String
  googleMapsURL : Option (Option String)
  latitude : Option String
  longitude : Option String
deriving DecidableEq

/-- Greedy `\d+` at the head of a character list. -/
def takeDigits (cs : List Char) : List Char × List Char :=
  (cs.takeWhile Char.isDigit, cs.dropWhile Char.isDigit)

/-- Match `[-]?\d+\.\d+` at the head of the list, returning the matched
numeral and the rest.  `\d+` is greedy; since digits, `.` and `,` are
disjoint, greedy matching needs no backtracking here. -/
def matchDecimalAt (cs : List Char) : Option (List Char × List Char) :=
  let (sign, cs1) :=
    match cs with
    | '-' :: rest => (['-'], rest)
    | _ => (([] : List Char), cs)
  match takeDigits cs1 with
  | ([], _) => none
  | (ds, rest1) =>
    match rest1 with
    | '.' :: rest2 =>
      match takeDigits rest2 with
      | ([], _) => none
      | (fs, rest3) => some (sign ++ ds ++ ['.'] ++ fs, rest3)
    | _ => none

/-- Match the body of `@?([-]?\d+\.\d+),([-]?\d+\.\d+)` at the head of the
list.  The leading `@?` never affects whether `re.search` succeeds or what
the two groups capture, so it is omitted. -/
def matchCoordPairAt (cs : List Char) : Option (String × String) :=
  match matchDecimalAt cs with
  | none => none
  | some (la, rest) =>
    match rest with
    | ',' :: rest2 =>
      match matchDecimalAt rest2 with
      | none => none
      | some (lo, _) => some (String.mk la, String.mk lo)
    | _ => none

/-- `re.search(r"@?([-]?\d+\.\d+),([-]?\d+\.\d+)", url)`: try the pattern at
every position from the left, returning the first match's two groups. -/
def search_coords : List Char → Option (String × String)
  | [] => none
  | c :: rest =>
    match matchCoordPairAt (c :: rest) with
    | some p => some p
    | none => search_coords rest

/-- The coordinate/timezone resolution of `get_dusk_dawn_times`
(lines 74–106; the subsequent astral `sun` computation is an external
library call).  `deviceLoc` is what the device tier produced: `none` when
no device is configured, the lookup raised (caught and logged), or
`get_device_location` returned a falsy value.  Returns the resolved
timezone, latitude and longitude, and whether the `(0, 0)` default warning
was logged. -/
def resolve_location (conf : LocationConf) (deviceLoc : Option ShellyLoc) :
    String × String × String × Bool :=
  let (tz0, lat0, lon0) :=
    match conf.useShellyDevice with
    | some nm =>
      if nm == "" then (none, none, none)
      else
        match deviceLoc with
        | some l => (l.tz, l.lat, l.lon)
        | none => ((none : Option String), (none : Option String), (none : Option String))
    | none => (none, none, none)
  let (tz1, lat1, lon1) :=
    match tz0 with
    | some tz => (tz, lat0, lon0)
    | none =>
      match conf.googleMapsURL with
      | some (some url) =>
        match search_coords url.data with
        | some (la, lo) => (conf.timezone, some la, some lo)
        | none => (conf.timezone, lat0, lon0)
      | _ => (conf.timezone, conf.latitude, conf.longitude)
  if lat1.isNone || lon1.isNone then (tz1, "0.0", "0.0", true)
  else (tz1, lat1.getD "", lon1.getD "", false)

/-! ## Specification-side predicates and measures -/

/-- Well-formedness of an event time spec, as the code accepts it: a
dawn/dusk-prefixed spec whose suffix is empty or matches the signed offset
regex `[+-]\d{2}:\d{2}`, or otherwise a clock time `strptime("%H:%M")`
accepts — one- or two-digit hour 0–23, colon, one- or two-digit minutes
0–59, nothing else. -/
def well_formed_time_spec (s : String) : Bool :=
  if startsWithDawn s.data || startsWithDusk s.data then
    (s.data.drop 4).isEmpty || (matchSignedOffset (s.data.drop 4)).isSome
  else (matchHourMinute s.data).isSome

/-- Total number of events in a history log, across all day-buckets. -/
def total_events (l : List DayBucket) : Nat := (l.map fun d => d.events.length).sum

/-- Bucket ordering by date is total. -/
instance : IsTotal DayBucket (fun a b => a.date ≤ b.date) :=
  ⟨fun a b => le_total a.date b.date⟩

/-- Bucket ordering by date is transitive. -/
instance : IsTrans DayBucket (fun a b => a.date ≤ b.date) :=
  ⟨fun _ _ _ hab hbc => le_trans hab hbc⟩

/-- Event ordering by time is total. -/
instance : IsTotal SwitchEventRec (fun a b => a.time ≤ b.time) :=
  ⟨fun a b => le_total a.time b.time⟩

/-- Event ordering by time is transitive. -/
instance : IsTrans SwitchEventRec (fun a b => a.time ≤ b.time) :=
  ⟨fun _ _ _ hab hbc => le_trans hab hbc⟩

/-! ## Theorems: schedule evaluation windows (C1, C2, C5) -/

/-- Helper: a single admitted event with successfully resolved times
evaluates to the window test's verdict, leaving the cache as the two
`_parse_time` calls left it. -/
theorem evaluate_events_single (duskDawn : Option DuskDawn) (draw : String → Int)
    (today : Int) (todayStr scheduleName : String) (e : ScheduleEvent)
    (now_time : Nat) (weekday_str : String) (cache c1 c2 : OffsetCache)
    (on_time off_time : Nat)
    (hday : day_matches e.daysOfWeek weekday_str = true)
    (hdates : dates_off_hit today e.datesOff = false)
    (hon : parse_time duskDawn cache todayStr e.turnOn e.randomOffset
      scheduleName 0 "On" draw = .ok (on_time, c1))
    (hoff : parse_time duskDawn c1 todayStr e.turnOff e.randomOffset
      scheduleName 0 "Off" draw = .ok (off_time, c2)) :
    evaluate_events duskDawn draw today todayStr scheduleName now_time weekday_str
        [e] 0 cache =
      .ok ((if on_time < off_time then
              if on_time ≤ now_time ∧ now_time < off_time then "ON" else "OFF"
            else if now_time ≥ on_time ∨ now_time < off_time then "ON" else "OFF"),
           c2) := by
  unfold evaluate_events
  simp only [hday, hdates, hon, hoff]
  simp only [Bool.not_true, Bool.false_eq_true, if_false]
  by_cases hlt : on_time < off_time
  · simp only [hlt, if_true]
    by_cases h1 : on_time ≤ now_time <;> by_cases h2 : now_time < off_time <;>
      simp [evaluate_events, h1, h2]
  · simp only [hlt, if_false]
    by_cases h1 : now_time ≥ on_time <;> by_cases h2 : now_time < off_time <;>
      simp [evaluate_events, h1, h2]

/-- **C1.** For a schedule event whose resolved on-time is strictly earlier
than its resolved off-time (same-day window), with the day-of-week filter
admitting today and no date-off range matching, evaluation of the
single-event schedule returns ON exactly when `on ≤ now < off` —
boundary-inclusive at the on-time, boundary-exclusive at the off-time —
and returns OFF for every other `now`. -/
theorem evaluate_schedule_same_day_window (duskDawn : Option DuskDawn)
    (draw : String → Int) (today : Int) (todayStr name : String)
    (e : ScheduleEvent) (now_time : Nat) (weekday_str : String)
    (cache c1 c2 : OffsetCache) (on_time off_time : Nat)
    (hday : day_matches e.daysOfWeek weekday_str = true)
    (hdates : dates_off_hit today e.datesOff = false)
    (hon : parse_time duskDawn cache todayStr e.turnOn e.randomOffset
      name 0 "On" draw = .ok (on_time, c1))
    (hoff : parse_time duskDawn c1 todayStr e.turnOff e.randomOffset
      name 0 "Off" draw = .ok (off_time, c2))
    (hlt : on_time < off_time) :
    (evaluate_schedule duskDawn draw today todayStr ⟨name, [e]⟩ now_time weekday_str cache
        = .ok ("ON", c2) ↔ on_time ≤ now_time ∧ now_time < off_time) ∧
    (¬(on_time ≤ now_time ∧ now_time < off_time) →
      evaluate_schedule duskDawn draw today todayStr ⟨name, [e]⟩ now_time weekday_str cache
        = .ok ("OFF", c2)) := by
  have hres := evaluate_events_single duskDawn draw today todayStr name e now_time
    weekday_str cache c1 c2 on_time off_time hday hdates hon hoff
  unfold evaluate_schedule
  simp only at hres
  rw [hres, if_pos hlt]
  constructor
  · by_cases h : on_time ≤ now_time ∧ now_time < off_time
    · simp [h]
    · simp only [h, if_false, iff_false]
      intro hx
      rw [Except.ok.injEq, Prod.mk.injEq] at hx
      exact absurd hx.1 (by decide)
  · intro h
    simp [h]

/-- **C2.** For a schedule event whose resolved on-time is greater than or
equal to its resolved off-time (overnight window), with the day-of-week
filter admitting today and no date-off range matching, evaluation of the
single-event schedule returns ON exactly when `now ≥ on ∨ now < off`; in
particular the biconditional holds at both boundaries `now = on` (ON) and
`now = off`. -/
theorem evaluate_schedule_overnight_window (duskDawn : Option DuskDawn)
    (draw : String → Int) (today : Int) (todayStr name : String)
    (e : ScheduleEvent) (now_time : Nat) (weekday_str : String)
    (cache c1 c2 : OffsetCache) (on_time off_time : Nat)
    (hday : day_matches e.daysOfWeek weekday_str = true)
    (hdates : dates_off_hit today e.datesOff = false)
    (hon : parse_time duskDawn cache todayStr e.turnOn e.randomOffset
      name 0 "On" draw = .ok (on_time, c1))
    (hoff : parse_time duskDawn c1 todayStr e.turnOff e.randomOffset
      name 0 "Off" draw = .ok (off_time, c2))
    (hge : off_time ≤ on_time) :
    (evaluate_schedule duskDawn draw today todayStr ⟨name, [e]⟩ now_time weekday_str cache
        = .ok ("ON", c2) ↔ now_time ≥ on_time ∨ now_time < off_time) ∧
    (¬(now_time ≥ on_time ∨ now_time < off_time) →
      evaluate_schedule duskDawn draw today todayStr ⟨name, [e]⟩ now_time weekday_str cache
        = .ok ("OFF", c2)) := by
  have hres := evaluate_events_single duskDawn draw today todayStr name e now_time
    weekday_str cache c1 c2 on_time off_time hday hdates hon hoff
  unfold evaluate_schedule
  simp only at hres
  rw [hres, if_neg (by omega)]
  constructor
  · by_cases h : now_time ≥ on_time ∨ now_time < off_time
    · simp [h]
    · simp only [h, if_false, iff_false]
      intro hx
      rw [Except.ok.injEq, Prod.mk.injEq] at hx
      exact absurd hx.1 (by decide)
  · intro h
    simp [h]

/-- Helper: events whose day-of-week filter rejects today are skipped,
advancing only the enumeration index. -/
theorem evaluate_events_skip_leading (duskDawn : Option DuskDawn) (draw : String → Int)
    (today : Int) (todayStr scheduleName : String) (now_time : Nat)
    (weekday_str : String) :
    ∀ (pre rest : List ScheduleEvent) (idx : Nat) (cache : OffsetCache),
      (∀ p ∈ pre, day_matches p.daysOfWeek weekday_str = false) →
      evaluate_events duskDawn draw today todayStr scheduleName now_time weekday_str
          (pre ++ rest) idx cache =
        evaluate_events duskDawn draw today todayStr scheduleName now_time weekday_str
          rest (idx + pre.length) cache
  | [], rest, idx, cache, _ => by simp
  | p :: pre, rest, idx, cache, h => by
    rw [List.cons_append]
    simp only [evaluate_events]
    rw [h p (by simp)]
    simp only [Bool.not_false, if_true]
    rw [evaluate_events_skip_leading duskDawn draw today todayStr scheduleName now_time
      weekday_str pre rest (idx + 1) cache (fun q hq => h q (by simp [hq]))]
    have hidx : idx + 1 + pre.length = idx + (p :: pre).length := by
      simp only [List.length_cons]
      omega
    rw [hidx]

/-- **C5.** If the first event of a schedule whose day-of-week filter admits
today has a matching date-off range, evaluation returns OFF immediately for
the entire schedule — for every tail of later events and regardless of the
event's on/off time configuration (the time specs are never parsed, so the
cache is returned unchanged) — and a preceding run of events rejected by
the day-of-week filter does not change this.  Moreover a date-off range
with a missing or malformed `StartDate`/`EndDate` is skipped without
affecting the verdict of the remaining ranges. -/
theorem dates_off_short_circuits_schedule (duskDawn : Option DuskDawn)
    (draw : String → Int) (today : Int) (todayStr name : String)
    (pre : List ScheduleEvent) (e : ScheduleEvent) (rest : List ScheduleEvent)
    (now_time : Nat) (weekday_str : String) (cache : OffsetCache)
    (hpre : ∀ p ∈ pre, day_matches p.daysOfWeek weekday_str = false)
    (hday : day_matches e.daysOfWeek weekday_str = true)
    (hhit : dates_off_hit today e.datesOff = true) :
    evaluate_schedule duskDawn draw today todayStr ⟨name, pre ++ e :: rest⟩
        now_time weekday_str cache = .ok ("OFF", cache) ∧
    (∀ (r : DateRange) (rs : List DateRange),
      r.startDate = none ∨ r.endDate = none →
      dates_off_hit today (r :: rs) = dates_off_hit today rs) := by
  constructor
  · unfold evaluate_schedule
    rw [evaluate_events_skip_leading duskDawn draw today todayStr name now_time
      weekday_str pre (e :: rest) 0 cache hpre]
    unfold evaluate_events
    rw [hday, hhit]
    simp
  · rintro ⟨s1, e1⟩ rs hr
    rcases hr with h | h
    · rw [show DateRange.startDate ⟨s1, e1⟩ = s1 from rfl] at h
      subst h
      cases e1 <;> rfl
    · rw [show DateRange.endDate ⟨s1, e1⟩ = e1 from rfl] at h
      subst h
      cases s1 <;> rfl

/-! ## Theorems: jitter caching (C4) -/

/-- **C4.** With a non-zero maximum jitter, the first resolution of a time
spec on a cache miss stores the freshly drawn delta (the value
`random.randint(-m, m)` produced, modelled by the oracle `draw`; `randint`
draws uniformly from the closed interval `[-m, m]`) under the key built
from today's date, the schedule name, the event index and the mode; every
subsequent resolution with the same key on the same day returns the
identical resolved time and leaves the cache unchanged, whatever the random
source would produce next — so repeated evaluations within one day are
idempotent. -/
theorem jitter_draw_cached_and_idempotent (dd : DuskDawn) (cache : OffsetCache)
    (todayStr time_str schedule_name mode : String) (event_index : Nat)
    (m : Nat) (draw draw2 : String → Int) (t : Nat) (cache' : OffsetCache)
    (hm : m ≠ 0)
    (hmiss : cache.lookup (generate_offset_key todayStr schedule_name event_index mode)
      = none)
    (hfirst : parse_time (some dd) cache todayStr time_str (some m)
      schedule_name event_index mode draw = .ok (t, cache')) :
    cache' = (generate_offset_key todayStr schedule_name event_index mode,
              draw (generate_offset_key todayStr schedule_name event_index mode))
             :: cache ∧
    parse_time (some dd) cache' todayStr time_str (some m)
      schedule_name event_index mode draw2 = .ok (t, cache') := by
  unfold parse_time at hfirst ⊢
  cases hbase : parse_base_time (some dd) time_str schedule_name event_index mode with
  | error e => rw [hbase] at hfirst; exact absurd hfirst (by simp)
  | ok base =>
    simp only [hbase, if_pos hm, hmiss] at hfirst
    rw [Except.ok.injEq, Prod.mk.injEq] at hfirst
    obtain ⟨ht, hc⟩ := hfirst
    refine ⟨hc.symm, ?_⟩
    simp only [hbase, if_pos hm, ← hc]
    rw [← ht]
    simp [List.lookup]

/-! ## Theorems: time-spec parsing errors (C8) -/

/-- Helper: `parse_base_time` succeeds exactly on well-formed specs, and on
a malformed spec produces the branch-appropriate fatal error, which carries
the schedule name and the offending time entry. -/
theorem parse_base_time_characterization (dd : DuskDawn) (s sn : String)
    (i : Nat) (mo : String) :
    ((∃ t, parse_base_time (some dd) s sn i mo = .ok t)
        ↔ well_formed_time_spec s = true) ∧
    (well_formed_time_spec s = false →
      parse_base_time (some dd) s sn i mo
        = .error (if startsWithDawn s.data || startsWithDusk s.data
                  then ParseErr.invalidOffset sn s
                  else ParseErr.invalidTime sn s)) := by
  unfold parse_base_time well_formed_time_spec
  by_cases hpre : (startsWithDawn s.data || startsWithDusk s.data) = true
  · simp only [hpre, if_true]
    by_cases hemp : (s.data.drop 4).isEmpty
    · simp [hemp]
    · simp only [hemp, Bool.false_or, if_false]
      cases hm : matchSignedOffset (s.data.drop 4) <;> simp [hm]
  · rw [Bool.not_eq_true] at hpre
    simp only [hpre, if_false, Bool.false_eq_true]
    cases hm : matchHourMinute s.data <;> simp [hm]

/-- Helper: the random-offset stage of `_parse_time` never introduces or
masks a fatal error — `parse_time` succeeds iff `parse_base_time` does,
and propagates its error unchanged. -/
theorem parse_time_ok_iff_base (duskDawn : Option DuskDawn) (cache : OffsetCache)
    (todayStr time_str : String) (ro : Option Nat) (schedule_name : String)
    (event_index : Nat) (mode : String) (draw : String → Int) :
    ((∃ t c, parse_time duskDawn cache todayStr time_str ro schedule_name
        event_index mode draw = .ok (t, c))
      ↔ (∃ t, parse_base_time duskDawn time_str schedule_name event_index mode = .ok t)) ∧
    (∀ e, parse_base_time duskDawn time_str schedule_name event_index mode = .error e →
      parse_time duskDawn cache todayStr time_str ro schedule_name
        event_index mode draw = .error e) := by
  unfold parse_time
  cases hbase : parse_base_time duskDawn time_str schedule_name event_index mode with
  | error e => simp
  | ok base =>
    refine ⟨?_, by simp⟩
    simp only [Except.ok.injEq, exists_and_right, exists_eq', and_true, iff_true]
    cases ro with
    | none => exact ⟨base, cache, rfl⟩
    | some m =>
      by_cases hm : m = 0
      · subst hm
        exact ⟨base, cache, by simp⟩
      · cases hl : List.lookup (generate_offset_key todayStr schedule_name event_index mode) cache with
        | some delta => exact ⟨addMinutes base delta, cache, by simp [hm, hl]⟩
        | none =>
          exact ⟨addMinutes base (draw (generate_offset_key todayStr schedule_name event_index mode)),
            (generate_offset_key todayStr schedule_name event_index mode,
              draw (generate_offset_key todayStr schedule_name event_index mode)) :: cache,
            by simp [hm, hl]⟩

/-- **C8 (amended).** With dawn/dusk times available, event-time parsing
raises a fatal configuration error exactly for specs the code's patterns
reject — a dawn/dusk-prefixed spec whose non-empty suffix does not match
`[+-]\d{2}:\d{2}` (sign, two digits, colon, any two digits), or any other
spec rejected by `strptime("%H:%M")` (which also accepts one-digit hour and
minute fields, so not every accepted spec is in exact `HH:MM` form); for
every well-formed spec a time-of-day is returned, whatever the jitter
configuration and cache contents.  The malformed-offset error and the
malformed-time error each name the schedule and the offending time entry
(not the event index or the mode). -/
theorem parse_time_error_characterization (dd : DuskDawn) (cache : OffsetCache)
    (todayStr time_str schedule_name mode : String) (event_index : Nat)
    (ro : Option Nat) (draw : String → Int) :
    ((∃ t c, parse_time (some dd) cache todayStr time_str ro schedule_name
        event_index mode draw = .ok (t, c))
      ↔ well_formed_time_spec time_str = true) ∧
    (well_formed_time_spec time_str = false →
      parse_time (some dd) cache todayStr time_str ro schedule_name
          event_index mode draw
        = .error (if startsWithDawn time_str.data || startsWithDusk time_str.data
                  then ParseErr.invalidOffset schedule_name time_str
                  else ParseErr.invalidTime schedule_name time_str)) := by
  obtain ⟨hbase_iff, hbase_err⟩ :=
    parse_base_time_characterization dd time_str schedule_name event_index mode
  obtain ⟨hok_iff, herr⟩ :=
    parse_time_ok_iff_base (some dd) cache todayStr time_str ro schedule_name
      event_index mode draw
  exact ⟨hok_iff.trans hbase_iff, fun h => herr _ (hbase_err h)⟩

/-- Witness for `parse_time_error_characterization` at a concrete malformed
spec: `"25:99"` is rejected with the invalid-time error naming schedule and
entry. -/
theorem parse_time_error_characterization_witness :
    well_formed_time_spec "25:99" = false ∧
    parse_time (some ⟨360, 1110⟩) [] "2024-06-01" "25:99" none "S" 0 "On"
        (fun _ => 0)
      = .error (if startsWithDawn "25:99".data || startsWithDusk "25:99".data
                then ParseErr.invalidOffset "S" "25:99"
                else ParseErr.invalidTime "S" "25:99") :=
  ⟨rfl,
   (parse_time_error_characterization ⟨360, 1110⟩ [] "2024-06-01" "25:99" "S" "On" 0
      none (fun _ => 0)).2 rfl⟩

/-- **C8 (counterexample).** The claim as stated fails on the code in two
ways, at concrete inputs: `"9:30"` is not in exact 24-hour `HH:MM` form yet
parses without any fatal error (to 09:30), and the malformed-offset fatal
error for `"dawn+5:00"` is identical across different event indices and
modes — it names only the schedule and the time entry, not the event index
or the mode. -/
theorem parse_time_leniency_counterexample :
    parse_time (some ⟨360, 1110⟩) [] "2024-06-01" "9:30" none "Evening" 0 "On"
        (fun _ => 0) = .ok (570, []) ∧
    parse_time (some ⟨360, 1110⟩) [] "2024-06-01" "dawn+5:00" none "Evening" 3 "On"
        (fun _ => 0) = .error (.invalidOffset "Evening" "dawn+5:00") ∧
    parse_time (some ⟨360, 1110⟩) [] "2024-06-01" "dawn+5:00" none "Evening" 9 "Off"
        (fun _ => 0) = .error (.invalidOffset "Evening" "dawn+5:00") :=
  ⟨rfl, rfl, rfl⟩

/-! ## Theorems: mapping conflicts (C6) -/

/-- Helper: setting one key of the assignments dictionary changes exactly
that key's lookup. -/
theorem lookup_assignments_set (A : Assignments) (k : String) (v : Option String)
    (o : String) :
    (assignments_set A k v).lookup o = if o = k then some v else A.lookup o := by
  induction A with
  | nil =>
    simp only [assignments_set, List.lookup]
    by_cases ho : o = k
    · simp [ho]
    · simp [ho, beq_eq_false_iff_ne.mpr ho]
  | cons kv rest ih =>
    obtain ⟨k', v'⟩ := kv
    simp only [assignments_set]
    by_cases hk : k' = k
    · subst hk
      simp only [beq_self_eq_true, if_true, List.lookup]
      by_cases ho : o = k'
      · simp [ho]
      · simp [beq_eq_false_iff_ne.mpr ho, ho]
    · simp only [beq_eq_false_iff_ne.mpr hk, if_false, List.lookup]
      by_cases ho : o = k'
      · simp [ho, hk]
      · simp [beq_eq_false_iff_ne.mpr ho, ho, ih]

/-- Helper: `assignments_get` after `assignments_set`. -/
theorem assignments_get_set (A : Assignments) (k : String) (v : Option String)
    (o : String) :
    assignments_get (assignments_set A k v) o = if o = k then v else assignments_get A o := by
  unfold assignments_get
  rw [lookup_assignments_set]
  by_cases ho : o = k <;> simp [ho]

/-- Helper: a non-empty assignment is truthy. -/
theorem truthy_some {v : String} (hv : v ≠ "") : truthy (some v) = true := by
  simp [truthy, hv]

/-- Helper: the group-member loop never overwrites a non-empty
assignment. -/
theorem assign_group_preserves (warn : String → String → String)
    (payload : Option String) (ms : List String) :
    ∀ (acc : Assignments × List String) (o v : String), v ≠ "" →
      assignments_get acc.1 o = some v →
      assignments_get (assign_group warn payload ms acc).1 o = some v := by
  induction ms with
  | nil => intro acc o v _ h; exact h
  | cons m ms ih =>
    intro acc o v hv h
    obtain ⟨A, W⟩ := acc
    unfold assign_group
    by_cases hm : truthy (assignments_get A m) = true
    · simp only [hm, if_true]
      exact ih _ o v hv h
    · simp only [hm, if_false]
      apply ih _ o v hv
      simp only [assignments_get_set]
      by_cases ho : o = m
      · subst ho
        rw [h] at hm
        exact absurd (truthy_some hv) hm
      · simp [ho, h]

/-- Helper: one `LightingControl` rule never overwrites a non-empty
assignment. -/
theorem apply_schedule_rule_preserves (outputs : List ShellyOutput)
    (acc : Assignments × List String) (r : LightingControlRule)
    (o v : String) (hv : v ≠ "") (h : assignments_get acc.1 o = some v) :
    assignments_get (apply_schedule_rule outputs acc r).1 o = some v := by
  obtain ⟨A, W⟩ := acc
  unfold apply_schedule_rule
  by_cases h1 : lowerString r.type = "default"
  · simp [h1, h]
  · by_cases h2 : lowerString r.type = "switch"
    · by_cases hg : truthy (assignments_get A r.target) = true
      · simp [h1, h2, hg, h]
      · by_cases ho : o = r.target
        · subst ho
          rw [h] at hg
          exact absurd (truthy_some hv) hg
        · simp [h1, h2, hg, h, assignments_get_set, ho]
    · by_cases h3 : lowerString r.type = "switch group"
      · have hgrp := assign_group_preserves
          (fun o2 v2 => schedule_group_conflict_warning o2 r.target v2) r.schedule
          (group_members outputs r.target) (A, W) o v hv h
        simpa [h1, h2, h3] using hgrp
      · simp [h1, h2, h3, h]

/-- Helper: one `InputControls` rule never overwrites a non-empty
assignment. -/
theorem apply_input_rule_preserves (outputs : List ShellyOutput)
    (acc : Assignments × List String) (r : InputControlRule)
    (o v : String) (hv : v ≠ "") (h : assignments_get acc.1 o = some v) :
    assignments_get (apply_input_rule outputs acc r).1 o = some v := by
  obtain ⟨A, W⟩ := acc
  unfold apply_input_rule
  by_cases h1 : lowerString r.type = "default"
  · simp [h1, h]
  · by_cases h2 : lowerString r.type = "switch"
    · by_cases hg : truthy (assignments_get A r.target) = true
      · simp [h1, h2, hg, h]
      · by_cases ho : o = r.target
        · subst ho
          rw [h] at hg
          exact absurd (truthy_some hv) hg
        · simp [h1, h2, hg, h, assignments_get_set, ho]
    · by_cases h3 : lowerString r.type = "switch group"
      · have hgrp := assign_group_preserves
          (fun o2 v2 => input_group_conflict_warning o2 r.target v2) r.input
          (group_members outputs r.target) (A, W) o v hv h
        simpa [h1, h2, h3] using hgrp
      · simp [h1, h2, h3, h]

/-- **C6 (amended).** For every sequence of assignment rules processed in
file order, whenever a switch or switch-group rule targets an output that
already has a non-empty (truthy) assignment, the mapper keeps the existing
first assignment and does not overwrite it — for both the
schedule-to-output and the input-to-output pass — and a conflicting direct
switch rule leaves the map unchanged while appending exactly the conflict
warning.  (All functions are total: no exception is raised.) -/
theorem mapper_first_nonempty_assignment_wins (outputs : List ShellyOutput)
    (A : Assignments) (W : List String)
    (scheduleRules : List LightingControlRule) (inputRules : List InputControlRule)
    (o v : String) (hv : v ≠ "") (h : assignments_get A o = some v) :
    assignments_get (scheduleRules.foldl (apply_schedule_rule outputs) (A, W)).1 o
        = some v ∧
    assignments_get (inputRules.foldl (apply_input_rule outputs) (A, W)).1 o
        = some v ∧
    (∀ r : LightingControlRule, lowerString r.type = "switch" → r.target = o →
      apply_schedule_rule outputs (A, W) r
        = (A, W ++ [schedule_conflict_warning o v])) ∧
    (∀ r : InputControlRule, lowerString r.type = "switch" → r.target = o →
      apply_input_rule outputs (A, W) r
        = (A, W ++ [input_conflict_warning o v])) := by
  refine ⟨?_, ?_, ?_, ?_⟩
  · clear inputRules
    induction scheduleRules generalizing A W with
    | nil => exact h
    | cons r rs ih =>
      simp only [List.foldl_cons]
      exact ih (apply_schedule_rule outputs (A, W) r).1
        (apply_schedule_rule outputs (A, W) r).2
        (apply_schedule_rule_preserves outputs (A, W) r o v hv h)
  · clear scheduleRules
    induction inputRules generalizing A W with
    | nil => exact h
    | cons r rs ih =>
      simp only [List.foldl_cons]
      exact ih (apply_input_rule outputs (A, W) r).1
        (apply_input_rule outputs (A, W) r).2
        (apply_input_rule_preserves outputs (A, W) r o v hv h)
  · intro r ht htarget
    unfold apply_schedule_rule
    rw [ht, htarget]
    have hg : truthy (assignments_get A o) = true := by rw [h]; exact truthy_some hv
    simp [hg, h, truthy_some hv]
  · intro r ht htarget
    unfold apply_input_rule
    rw [ht, htarget]
    have hg : truthy (assignments_get A o) = true := by rw [h]; exact truthy_some hv
    simp [hg, h, truthy_some hv]

/-- Witness for `mapper_first_nonempty_assignment_wins`: a second switch
rule targeting `O1` keeps the first assignment `S1` and logs the conflict
warning. -/
theorem mapper_first_nonempty_assignment_wins_witness :
    assignments_get
        (([⟨"Switch", "O1", some "S2"⟩] : List LightingControlRule).foldl
          (apply_schedule_rule []) ([("O1", some "S1")], [])).1 "O1" = some "S1" ∧
    apply_schedule_rule [] ([("O1", some "S1")], []) ⟨"Switch", "O1", some "S2"⟩
      = ([("O1", some "S1")], [schedule_conflict_warning "O1" "S1"]) := by
  have h := mapper_first_nonempty_assignment_wins [] [("O1", some "S1")] []
    [⟨"Switch", "O1", some "S2"⟩] [] "O1" "S1" (by decide) rfl
  exact ⟨h.1, h.2.2.1 ⟨"Switch", "O1", some "S2"⟩ rfl rfl⟩

/-- **C6 (counterexample).** The claim as stated fails on the code: an
output already holding the non-null (but empty-string) assignment `""` is
silently overwritten by a later rule — the Python guard is truthiness, not
an `is not None` test — so `map_schedules_to_outputs` ends with the second
schedule and no warning. -/
theorem mapper_overwrites_empty_assignment :
    map_schedules_to_outputs [⟨"O1", none⟩]
        [⟨"Switch", "O1", some ""⟩, ⟨"Switch", "O1", some "S2"⟩]
      = ([("O1", some "S2")], []) := rfl

/-! ## Theorems: history retention and ordering (C7) -/

/-- **C7.** `_save_state` trims and sorts the history immediately before
building the persisted snapshot: the snapshot's `SwitchEvents` (and the
in-place updated history) are exactly the trimmed list, in which no bucket
is dated before `today - max_days` (a bucket dated exactly `today -
max_days` survives the filter, with its events reordered but preserved),
the buckets are sorted ascending by date, and each bucket's events are
sorted ascending by time. -/
theorem save_state_trims_and_sorts_history (max_days : Nat) (today : Int)
    (offset_cache : OffsetCache) (switch_events : List DayBucket)
    (_hpos : 0 < max_days) :
    (save_state max_days today offset_cache switch_events).1.switchEvents
        = trim_switch_events max_days today switch_events ∧
    (save_state max_days today offset_cache switch_events).2
        = trim_switch_events max_days today switch_events ∧
    (∀ d ∈ trim_switch_events max_days today switch_events,
      today - (max_days : Int) ≤ d.date) ∧
    (trim_switch_events max_days today switch_events).Sorted
        (fun a b => a.date ≤ b.date) ∧
    (∀ d ∈ trim_switch_events max_days today switch_events,
      d.events.Sorted (fun a b => a.time ≤ b.time)) ∧
    (∀ d ∈ switch_events, today - (max_days : Int) ≤ d.date →
      ∃ d2 ∈ trim_switch_events max_days today switch_events,
        d2.date = d.date ∧ d2.events.Perm d.events) := by
  refine ⟨rfl, rfl, ?_, ?_, ?_, ?_⟩
  · intro d hd
    simp only [trim_switch_events, List.mem_map] at hd
    obtain ⟨d0, hd0, rfl⟩ := hd
    rw [List.mem_insertionSort] at hd0
    have := (List.mem_filter.mp hd0).2
    simpa using this
  · unfold trim_switch_events
    exact (List.sorted_insertionSort _ _).map _ (fun a b hab => hab)
  · intro d hd
    simp only [trim_switch_events, List.mem_map] at hd
    obtain ⟨d0, _, rfl⟩ := hd
    exact List.sorted_insertionSort _ _
  · intro d hd hdate
    refine ⟨⟨d.date, List.insertionSort (fun a b => a.time ≤ b.time) d.events⟩, ?_,
      rfl, List.perm_insertionSort _ _⟩
    simp only [trim_switch_events, List.mem_map]
    refine ⟨d, ?_, rfl⟩
    rw [List.mem_insertionSort]
    exact List.mem_filter.mpr ⟨hd, by simpa using hdate⟩

/-- Witness for `save_state_trims_and_sorts_history`: a concrete
out-of-order two-bucket history with retention 2 days. -/
theorem save_state_trims_and_sorts_history_witness :
    (save_state 2 10 []
        [⟨11, [⟨5, "O", none, none, "ON"⟩, ⟨3, "O", some "S", none, "OFF"⟩]⟩,
         ⟨7, [⟨1, "O", some "S", none, "ON"⟩]⟩]).1.switchEvents
      = trim_switch_events 2 10
          [⟨11, [⟨5, "O", none, none, "ON"⟩, ⟨3, "O", some "S", none, "OFF"⟩]⟩,
           ⟨7, [⟨1, "O", some "S", none, "ON"⟩]⟩] :=
  (save_state_trims_and_sorts_history 2 10 []
    [⟨11, [⟨5, "O", none, none, "ON"⟩, ⟨3, "O", some "S", none, "OFF"⟩]⟩,
     ⟨7, [⟨1, "O", some "S", none, "ON"⟩]⟩] (by decide)).1

/-! ## Theorems: reconciliation (C3, C10) -/

/-- Helper: recording a switch event adds exactly one event to the
history. -/
theorem total_events_record (event_date : Int) (event_time : Nat)
    (sw state : String) (sn inp : Option String) :
    ∀ evs : List DayBucket,
      total_events (record_switch_event event_date event_time evs sw state sn inp)
        = total_events evs + 1
  | [] => by simp [record_switch_event, total_events]
  | d :: rest => by
    unfold record_switch_event
    by_cases hd : (d.date == event_date) = true
    · simp only [hd, if_true, total_events, List.map_cons, List.sum_cons,
        List.length_append, List.length_cons, List.length_nil]
      omega
    · rw [Bool.not_eq_true] at hd
      simp only [hd, Bool.false_eq_true, if_false, total_events, List.map_cons,
        List.sum_cons]
      have := total_events_record event_date event_time sw state sn inp rest
      unfold total_events at this
      omega

/-- **C3.** When an output's mapped input reads ON during reconciliation
and the device is online, the output is forced ON regardless of its
schedule-derived state: with the live output OFF, the on-command is issued,
a history event is recorded whose cause is the input name (`Input` set,
`Schedule` null), the `SwitchState` is marked ON — and the result is the
same whatever the schedule-derived state was (the schedule is not
consulted). -/
theorem input_override_forces_on (dev : DeviceView) (event_date : Int)
    (event_time : Nat) (st : SwitchState) (events : List DayBucket) (i : String)
    (hi : st.input = some i) (hne : i ≠ "")
    (hread : dev.inputState i = true)
    (honline : dev.online st.switch = true)
    (hoff : dev.outputState st.switch = false) :
    change_switch_states dev event_date event_time [st] events
      = ([{ st with state := "ON", inputState := some "ON" }],
         record_switch_event event_date event_time events st.switch "ON" none (some i),
         [(st.switch, true)]) ∧
    (∀ s2, change_switch_states dev event_date event_time [{ st with state := s2 }] events
      = ([{ st with state := "ON", inputState := some "ON" }],
         record_switch_event event_date event_time events st.switch "ON" none (some i),
         [(st.switch, true)])) := by
  constructor
  · simp [change_switch_states, change_one, honline, hoff, hi, hne, hread, truthy_input]
  · intro s2
    simp [change_switch_states, change_one, honline, hoff, hi, hne, hread, truthy_input]

/-- Witness for `input_override_forces_on`: an input reading ON forces a
live-OFF output ON and attributes the event to the input. -/
theorem input_override_forces_on_witness :
    change_switch_states ⟨fun _ => true, fun _ => false, fun _ => true⟩ 5 600
        [⟨"Porch", "Evening", "OFF", some "Btn", none⟩] []
      = ([⟨"Porch", "Evening", "ON", some "Btn", some "ON"⟩],
         record_switch_event 5 600 [] "Porch" "ON" none (some "Btn"),
         [("Porch", true)]) :=
  (input_override_forces_on ⟨fun _ => true, fun _ => false, fun _ => true⟩ 5 600
    ⟨"Porch", "Evening", "OFF", some "Btn", none⟩ [] "Btn" rfl (by decide)
    rfl rfl rfl).1

/-- **C10.** For an output with no active input override (no mapped truthy
input, or its input reading OFF) whose device is online, reconciliation
issues a device command and appends exactly one history event — attributed
to the schedule — if and only if the schedule-derived desired state
differs from the live output state; when they match, no command is issued
and the history is unchanged. -/
theorem schedule_reconciliation_commands_iff_diff (dev : DeviceView)
    (event_date : Int) (event_time : Nat) (st : SwitchState)
    (events : List DayBucket)
    (honline : dev.online st.switch = true)
    (hnoov : ∀ i, truthy_input st.input = some i → dev.inputState i = false) :
    (st.state ≠ (if dev.outputState st.switch then "ON" else "OFF") →
      ∃ st2, change_switch_states dev event_date event_time [st] events
        = ([st2],
           record_switch_event event_date event_time events st.switch st.state
             (some st.schedule) none,
           [(st.switch, st.state == "ON")]) ∧
        total_events (record_switch_event event_date event_time events st.switch
            st.state (some st.schedule) none)
          = total_events events + 1) ∧
    (st.state = (if dev.outputState st.switch then "ON" else "OFF") →
      ∃ st2, change_switch_states dev event_date event_time [st] events
        = ([st2], events, [])) := by
  have hcount := total_events_record event_date event_time st.switch st.state
    (some st.schedule) none events
  cases hti : truthy_input st.input with
  | none =>
    constructor
    · intro hne
      refine ⟨st, ?_, hcount⟩
      simp [change_switch_states, change_one, honline, hti,
        beq_eq_false_iff_ne.mpr hne]
    · intro heq
      refine ⟨st, ?_⟩
      simp [change_switch_states, change_one, honline, hti, heq]
  | some i =>
    have hioff := hnoov i hti
    constructor
    · intro hne
      refine ⟨{ st with inputState := some "OFF" }, ?_, hcount⟩
      simp [change_switch_states, change_one, honline, hti, hioff,
        beq_eq_false_iff_ne.mpr hne]
    · intro heq
      refine ⟨{ st with inputState := some "OFF" }, ?_⟩
      simp [change_switch_states, change_one, honline, hti, hioff, heq]

/-- Witness for `schedule_reconciliation_commands_iff_diff`: an output with
no mapped input, desired OFF against live ON, gets exactly one off-command
and one schedule-attributed event. -/
theorem schedule_reconciliation_commands_iff_diff_witness :
    ∃ st2, change_switch_states ⟨fun _ => true, fun _ => true, fun _ => false⟩ 5 600
        [⟨"Porch", "Evening", "OFF", none, none⟩] []
      = ([st2],
         record_switch_event 5 600 [] "Porch" "OFF" (some "Evening") none,
         [("Porch", false)]) ∧
      total_events (record_switch_event 5 600 [] "Porch" "OFF" (some "Evening") none)
        = total_events [] + 1 :=
  (schedule_reconciliation_commands_iff_diff
    ⟨fun _ => true, fun _ => true, fun _ => false⟩ 5 600
    ⟨"Porch", "Evening", "OFF", none, none⟩ []
    rfl (fun i h => by cases h)).1 (by decide)

/-! ## Theorems: location resolution (C9) -/

/-- **C9 (counterexample).** The claim as stated fails on the code: with
the device tier yielding nothing and a map-link URL present that does not
match the decimal-degree pattern, the resolver does *not* fall through to
the explicitly configured latitude/longitude (here -33.5/151.2) — the
`else` branch reading the explicit configuration is skipped whenever the
URL key is present, so the coordinates default to (0, 0) with the
warning. -/
theorem unmatched_url_skips_config_coordinates :
    resolve_location
        ⟨none, "Australia/Sydney", some (some "https://maps.app.goo.gl/XYZ"),
         some "-33.5", some "151.2"⟩ none
      = ("Australia/Sydney", "0.0", "0.0", true) := rfl

/-- **C9 (amended).** With the device tier yielding no location: if a
map-link URL is present (non-null), its decimal-degree search result is
final — a match supplies the coordinates, and a non-match leaves the
coordinates unresolved so they default to (0, 0) with a warning, without
consulting the explicit latitude/longitude; the explicit configuration is
used only when no URL key is present (or it is null), and only when that
too yields no pair does the resolver default to (0, 0) with a warning.
Resolution always returns a value — evaluation continues rather than
failing. -/
theorem resolve_location_tier_fallthrough (conf : LocationConf)
    (dl : Option ShellyLoc) (hdev : conf.useShellyDevice = none) :
    (∀ url, conf.googleMapsURL = some (some url) →
      (∀ la lo, search_coords url.data = some (la, lo) →
        resolve_location conf dl = (conf.timezone, la, lo, false)) ∧
      (search_coords url.data = none →
        resolve_location conf dl = (conf.timezone, "0.0", "0.0", true))) ∧
    ((conf.googleMapsURL = none ∨ conf.googleMapsURL = some none) →
      (∀ la lo, conf.latitude = some la → conf.longitude = some lo →
        resolve_location conf dl = (conf.timezone, la, lo, false)) ∧
      ((conf.latitude = none ∨ conf.longitude = none) →
        resolve_location conf dl = (conf.timezone, "0.0", "0.0", true))) := by
  constructor
  · intro url hurl
    constructor
    · intro la lo hs
      simp [resolve_location, hdev, hurl, hs]
    · intro hs
      simp [resolve_location, hdev, hurl, hs]
  · intro hurl
    constructor
    · intro la lo hla hlo
      rcases hurl with h | h <;> simp [resolve_location, hdev, h, hla, hlo]
    · intro hno
      rcases hurl with h | h <;> rcases hno with h2 | h2 <;>
        simp [resolve_location, hdev, h, h2]

/-- Witness for `resolve_location_tier_fallthrough`: a URL with no
decimal-degree pair forces the (0, 0) default despite configured
coordinates. -/
theorem resolve_location_tier_fallthrough_witness :
    resolve_location ⟨none, "UTC", some (some "no-coords-here"), some "1.5",
        some "2.5"⟩ none
      = ("UTC", "0.0", "0.0", true) :=
  ((resolve_location_tier_fallthrough
      ⟨none, "UTC", some (some "no-coords-here"), some "1.5", some "2.5"⟩ none
      rfl).1 "no-coords-here" rfl).2 rfl

/-! ## Remaining witnesses -/

/-- Witness for `evaluate_schedule_same_day_window`: a 08:00–20:00 event at
09:00 on an admitted weekday. -/
theorem evaluate_schedule_same_day_window_witness :
    (evaluate_schedule (some ⟨360, 1110⟩) (fun _ => 0) 0 "2024-06-01"
        ⟨"Day", [⟨"08:00", "20:00", none, "All", []⟩]⟩ 540 "Mon" []
      = .ok ("ON", []) ↔ 480 ≤ 540 ∧ 540 < 1200) ∧
    (¬(480 ≤ 540 ∧ 540 < 1200) →
      evaluate_schedule (some ⟨360, 1110⟩) (fun _ => 0) 0 "2024-06-01"
        ⟨"Day", [⟨"08:00", "20:00", none, "All", []⟩]⟩ 540 "Mon" []
        = .ok ("OFF", [])) :=
  evaluate_schedule_same_day_window (some ⟨360, 1110⟩) (fun _ => 0) 0 "2024-06-01"
    "Day" ⟨"08:00", "20:00", none, "All", []⟩ 540 "Mon" [] [] [] 480 1200
    rfl rfl rfl rfl (by decide)

/-- Witness for `evaluate_schedule_overnight_window`: a 23:00–06:00 event
at 02:00. -/
theorem evaluate_schedule_overnight_window_witness :
    (evaluate_schedule (some ⟨360, 1110⟩) (fun _ => 0) 0 "2024-06-01"
        ⟨"Night", [⟨"23:00", "06:00", none, "All", []⟩]⟩ 120 "Mon" []
      = .ok ("ON", []) ↔ 120 ≥ 1380 ∨ 120 < 360) ∧
    (¬(120 ≥ 1380 ∨ 120 < 360) →
      evaluate_schedule (some ⟨360, 1110⟩) (fun _ => 0) 0 "2024-06-01"
        ⟨"Night", [⟨"23:00", "06:00", none, "All", []⟩]⟩ 120 "Mon" []
        = .ok ("OFF", [])) :=
  evaluate_schedule_overnight_window (some ⟨360, 1110⟩) (fun _ => 0) 0 "2024-06-01"
    "Night" ⟨"23:00", "06:00", none, "All", []⟩ 120 "Mon" [] [] [] 1380 360
    rfl rfl rfl rfl (by decide)

/-- Witness for `dates_off_short_circuits_schedule`: a day-filtered first
event, then an excluded event with unparseable time specs, then a later
event; today lies in the exclusion range, so the whole schedule is OFF. -/
theorem dates_off_short_circuits_schedule_witness :
    evaluate_schedule (some ⟨360, 1110⟩) (fun _ => 0) 3 "2024-06-01"
        ⟨"Hols", [⟨"10:00", "11:00", none, "Tue", []⟩,
                  ⟨"xx", "yy", none, "All", [⟨some 0, some 5⟩]⟩,
                  ⟨"00:00", "23:59", none, "All", []⟩]⟩ 630 "Mon" []
      = .ok ("OFF", []) :=
  (dates_off_short_circuits_schedule (some ⟨360, 1110⟩) (fun _ => 0) 3 "2024-06-01"
    "Hols" [⟨"10:00", "11:00", none, "Tue", []⟩]
    ⟨"xx", "yy", none, "All", [⟨some 0, some 5⟩]⟩
    [⟨"00:00", "23:59", none, "All", []⟩] 630 "Mon" []
    (by
      intro p hp
      cases hp with
      | head => rfl
      | tail _ h => cases h)
    rfl rfl).1

/-- Witness for `jitter_draw_cached_and_idempotent`: first resolution draws
3 and caches it; the second resolution with a different random source
returns the same 10:03 and leaves the cache unchanged. -/
theorem jitter_draw_cached_and_idempotent_witness :
    ([("2024-06-01|S|0|On", (3 : Int))]
        = (generate_offset_key "2024-06-01" "S" 0 "On",
           (fun _ : String => (3 : Int)) (generate_offset_key "2024-06-01" "S" 0 "On"))
          :: ([] : OffsetCache)) ∧
    parse_time (some ⟨360, 1110⟩) [("2024-06-01|S|0|On", (3 : Int))] "2024-06-01"
        "10:00" (some 5) "S" 0 "On" (fun _ => -4)
      = .ok (603, [("2024-06-01|S|0|On", (3 : Int))]) :=
  jitter_draw_cached_and_idempotent ⟨360, 1110⟩ [] "2024-06-01" "10:00" "S" "On" 0 5
    (fun _ => 3) (fun _ => -4) 603 [("2024-06-01|S|0|On", 3)]
    (by decide) rfl rfl

end LightingControl
